import Mathlib

/-!
Verification development for the localdoener shop directory.

The embedding models the server storage layer (`DatabaseStorage` in the
server storage module: `getShops`, `getShopBySlug`, `calculateDistance`,
review CRUD, favorites) and the client utility module (`calculateDistance`,
`isShopOpen`).

Modelling conventions:
* JavaScript numbers that can be `NaN` (they originate from `parseFloat` /
  `parseInt` of untrusted request parameters) are modelled by `JSNum`:
  either `nan` or an exact rational.  Well-formed coordinates stored in the
  database (decimal columns, always parsable) are modelled as plain `ℚ`.
* Transcendental primitives (`Math.sin`, `Math.cos`, `Math.sqrt`,
  `Math.atan2`, `Math.PI`) are abstracted into a `MathPrims` record of
  rational-valued functions; both distance formulas are embedded over the
  same primitives, which is exactly what the consistency claim is about.
* SQL result order without an ORDER BY is modelled as table order; ORDER BY
  and `Array.prototype.sort` are modelled by a deterministic insertion sort.
* The database is a record of tables (lists); each storage method is a pure
  function from the database (plus any freshly generated id / timestamp) to
  a result and possibly an updated database.
-/

namespace LocalDoener

/-- A JavaScript number that may be `NaN` (e.g. the result of `parseFloat` /
`parseInt` on a malformed request parameter).  Finite values are exact
rationals. -/
inductive JSNum where
  | nan : JSNum
  | num : ℚ → JSNum
deriving DecidableEq, Repr

/-- JavaScript `+` : `NaN` propagates. -/
def jsAdd : JSNum → JSNum → JSNum
  | JSNum.num a, JSNum.num b => JSNum.num (a + b)
  | _, _ => JSNum.nan

/-- JavaScript `-` : `NaN` propagates. -/
def jsSub : JSNum → JSNum → JSNum
  | JSNum.num a, JSNum.num b => JSNum.num (a - b)
  | _, _ => JSNum.nan

/-- JavaScript `<=` : any comparison involving `NaN` is `false`. -/
def jsLeb : JSNum → JSNum → Bool
  | JSNum.num a, JSNum.num b => decide (a ≤ b)
  | _, _ => false

/-- Truncation toward zero of a rational, as in ECMAScript
`ToIntegerOrInfinity` applied to a finite number. -/
def jsTruncInt (q : ℚ) : ℤ := if 0 ≤ q then ⌊q⌋ else -⌊-q⌋

/-- ECMAScript `ToIntegerOrInfinity`: `NaN` becomes `0`, finite values are
truncated toward zero. -/
def jsToIntOrZero : JSNum → ℤ
  | JSNum.nan => 0
  | JSNum.num q => jsTruncInt q

/-- ECMAScript `Array.prototype.slice(start, end)` with possibly-`NaN`
arguments: both indices go through `ToIntegerOrInfinity`, negative indices
count from the end, and the result is the run of elements between the two
clamped positions. -/
def jsSlice {α : Type} (l : List α) (s e : JSNum) : List α :=
  let len : ℤ := l.length
  let rs := jsToIntOrZero s
  let re := jsToIntOrZero e
  let lo : ℤ := if rs < 0 then max (len + rs) 0 else min rs len
  let hi : ℤ := if re < 0 then max (len + re) 0 else min re len
  (l.take hi.toNat).drop lo.toNat

/-- JavaScript `Math.round`: round half toward positive infinity. -/
def jsRound (q : ℚ) : ℤ := ⌊q + 1 / 2⌋

/-- Abstract transcendental primitives shared by the server and client
distance computations (`Math.sin`, `Math.cos`, `Math.sqrt`, `Math.atan2`,
`Math.PI`). -/
structure MathPrims where
  sin : ℚ → ℚ
  cos : ℚ → ℚ
  sqrt : ℚ → ℚ
  atan2 : ℚ → ℚ → ℚ
  pi : ℚ

/-- Server `DatabaseStorage.degreesToRadians`. -/
def degreesToRadians (p : MathPrims) (degrees : ℚ) : ℚ := degrees * (p.pi / 180)

/-- The kilometre value `R * c` computed by the server
`DatabaseStorage.calculateDistance` before unit conversion and rounding
(Haversine formula, Earth radius 6371 km). -/
def haversineKmServer (p : MathPrims) (lat1 lng1 lat2 lng2 : ℚ) : ℚ :=
  let R : ℚ := 6371
  let dLat := degreesToRadians p (lat2 - lat1)
  let dLng := degreesToRadians p (lng2 - lng1)
  let a :=
    p.sin (dLat / 2) * p.sin (dLat / 2) +
      p.cos (degreesToRadians p lat1) * p.cos (degreesToRadians p lat2) *
        p.sin (dLng / 2) * p.sin (dLng / 2)
  let c := 2 * p.atan2 (p.sqrt a) (p.sqrt (1 - a))
  R * c

/-- Server `DatabaseStorage.calculateDistance`: Haversine distance in metres,
`Math.round(distance * 1000)`. -/
def calculateDistance (p : MathPrims) (lat1 lng1 lat2 lng2 : ℚ) : ℤ :=
  jsRound (haversineKmServer p lat1 lng1 lat2 lng2 * 1000)

/-- Client `toRadians` from the client utility module. -/
def toRadians (p : MathPrims) (degrees : ℚ) : ℚ := degrees * (p.pi / 180)

/-- The kilometre value `R * c` computed by the client `calculateDistance`
before rounding (Haversine formula, Earth radius 6371 km). -/
def haversineKmClient (p : MathPrims) (lat1 lng1 lat2 lng2 : ℚ) : ℚ :=
  let R : ℚ := 6371
  let dLat := toRadians p (lat2 - lat1)
  let dLng := toRadians p (lng2 - lng1)
  let a :=
    p.sin (dLat / 2) * p.sin (dLat / 2) +
      p.cos (toRadians p lat1) * p.cos (toRadians p lat2) *
        p.sin (dLng / 2) * p.sin (dLng / 2)
  let c := 2 * p.atan2 (p.sqrt a) (p.sqrt (1 - a))
  R * c

/-- Client `calculateDistance`: kilometres rounded to 2 decimal places,
`Math.round(distance * 100) / 100`. -/
def calculateDistanceClient (p : MathPrims) (lat1 lng1 lat2 lng2 : ℚ) : ℚ :=
  (jsRound (haversineKmClient p lat1 lng1 lat2 lng2 * 100) : ℚ) / 100

/-- Server distance computation as invoked from `getShops`, where the
reference coordinates come from `parseFloat` of request parameters and may
be `NaN`.  A `NaN` coordinate propagates through the Haversine arithmetic
and `Math.round` to a `NaN` distance.  Shop coordinates are stored decimal
columns and always parse to finite values. -/
def calculateDistanceJS (p : MathPrims) (lat1 lng1 : JSNum) (lat2 lng2 : ℚ) : JSNum :=
  match lat1, lng1 with
  | JSNum.num a, JSNum.num b => JSNum.num ((calculateDistance p a b lat2 lng2 : ℤ) : ℚ)
  | _, _ => JSNum.nan

/-- A shop row (the columns of the `shops` table that the modelled
operations read).  `lat`/`lng` are decimal columns, modelled as their
rational values. -/
structure Shop where
  id : String
  slug : String
  name : String
  city : String
  lat : ℚ
  lng : ℚ
  priceLevel : ℕ
  halal : Bool
  veg : Bool
  hasOffers : Bool
  hasDelivery : Bool
  isPublished : Bool
deriving DecidableEq, Repr

/-- An `opening_hours` row: weekday 0 = Sunday .. 6 = Saturday; a time is
`none` when the column is null (closed that day) or when the stored string
does not parse; a parsed time is its HHMM encoding (`parseInt` of the
"HH:MM" string with the colon removed), matching the client computation. -/
structure OpeningHoursRow where
  shopId : String
  weekday : ℕ
  openTime : Option ℕ
  closeTime : Option ℕ
deriving DecidableEq, Repr

/-- A `reviews` row.  `userId` is set for authenticated reviews, `userHash`
for anonymous ones.  Timestamps are abstract instants (naturals). -/
structure Review where
  id : String
  shopId : String
  userId : Option String
  userHash : Option String
  isAnonymous : Bool
  authorName : Option String
  rating : ℕ
  text : String
  isEdited : Bool
  editedAt : Option ℕ
  createdAt : ℕ
  updatedAt : ℕ
deriving DecidableEq, Repr

/-- A `photos` row (only the columns the modelled queries touch). -/
structure Photo where
  id : String
  shopId : String
  url : String
  createdAt : ℕ
deriving DecidableEq, Repr

/-- A `user_favorites` row. -/
structure UserFavorite where
  id : String
  userId : String
  shopId : String
  createdAt : ℕ
deriving DecidableEq, Repr

/-- The database state: one list per table, in table order. -/
structure DB where
  shops : List Shop
  reviews : List Review
  openingHours : List OpeningHoursRow
  photos : List Photo
  userFavorites : List UserFavorite
deriving DecidableEq, Repr

/-- The filter object accepted by `DatabaseStorage.getShops`.  Numeric
fields hold `JSNum` because the route layer produces them with
`parseFloat` / `parseInt` from the query string (absent field ⇒ `none`,
malformed field ⇒ `some JSNum.nan`).  `sortBy` is an arbitrary optional
string: the route casts the raw query value without validation and the
storage layer compares it against the three literals. -/
structure ShopFilters where
  city : Option String
  lat : Option JSNum
  lng : Option JSNum
  radius : Option JSNum
  openNow : Bool
  halal : Bool
  veg : Bool
  hasOffers : Bool
  hasDelivery : Bool
  sortBy : Option String
  limit : Option JSNum
  offset : Option JSNum
deriving DecidableEq, Repr

/-- A filter object with nothing requested (all optional fields absent). -/
def emptyFilters : ShopFilters :=
  ⟨none, none, none, none, false, false, false, false, false, none, none, none⟩

/-- A row of the aggregating base query in `getShops`: a shop with its
aggregate rating data, plus the distance annotation attached later. -/
structure RankedRow where
  shop : Shop
  avgRating : ℚ
  reviewCount : ℕ
  distance : Option JSNum
deriving DecidableEq, Repr

/-- The hydrated result shape `ShopWithDetails` returned by `getShops` and
`getShopBySlug`. -/
structure ShopWithDetails where
  shop : Shop
  openingHours : List OpeningHoursRow
  reviews : List Review
  photos : List Photo
  avgRating : ℚ
  reviewCount : ℕ
  distance : Option JSNum
deriving DecidableEq, Repr

/-- JavaScript truthiness of an optional string (`undefined`, `null` and
`""` are falsy). -/
def jsTruthyStr : Option String → Bool
  | none => false
  | some s => !(s == "")

/-- All reviews of a shop (the review rows joined by `shopId`). -/
def shopReviews (db : DB) (sid : String) : List Review :=
  db.reviews.filter (fun r => r.shopId == sid)

/-- `COALESCE(AVG(reviews.rating), 0)` over a shop's reviews: the mean
rating, `0` when the shop has no reviews. -/
def avgRatingOf (db : DB) (sid : String) : ℚ :=
  let rs := shopReviews db sid
  if rs.isEmpty then 0 else ((rs.map (fun r => (r.rating : ℚ))).sum) / (rs.length : ℚ)

/-- The WHERE clause of the base query in `getShops`: published shops, with
each optional equality filter applied only when its value is truthy. -/
def matchesBaseFilters (f : ShopFilters) (s : Shop) : Bool :=
  s.isPublished &&
  (match f.city with
   | some c => if c == "" then true else s.city == c
   | none => true) &&
  (if f.halal then s.halal else true) &&
  (if f.veg then s.veg else true) &&
  (if f.hasOffers then s.hasOffers else true) &&
  (if f.hasDelivery then s.hasDelivery else true)

/-- Stable insertion of an element into a sorted list (helper for the
deterministic model of ORDER BY / `Array.prototype.sort`). -/
def insertSorted {α : Type} (le : α → α → Bool) (a : α) : List α → List α
  | [] => [a]
  | b :: bs => if le a b then a :: b :: bs else b :: insertSorted le a bs

/-- Deterministic insertion sort, the model of SQL ORDER BY and of
`Array.prototype.sort` with a comparator. -/
def sortWith {α : Type} (le : α → α → Bool) : List α → List α
  | [] => []
  | a :: as => insertSorted le a (sortWith le as)

/-- The aggregating base query of `getShops` (`select ... from shops left
join reviews ... group by shops.id` with the WHERE clause above); shops
with no reviews get `avgRating = 0` via COALESCE. -/
def baseQuery (db : DB) (f : ShopFilters) : List RankedRow :=
  (db.shops.filter (matchesBaseFilters f)).map (fun s =>
    ⟨s, avgRatingOf db s.id, (shopReviews db s.id).length, none⟩)

/-- The non-distance ORDER BY of `getShops`: rating descending, or price
ascending, or (whenever `sortBy` is not `distance`) the default compound
order price-ascending-then-rating-descending; no ordering is applied when
`sortBy` is `distance`. -/
def sortStage (f : ShopFilters) (rows : List RankedRow) : List RankedRow :=
  if f.sortBy == some "rating" then
    sortWith (fun a b => decide (b.avgRating ≤ a.avgRating)) rows
  else if f.sortBy == some "price" then
    sortWith (fun a b => decide (a.shop.priceLevel ≤ b.shop.priceLevel)) rows
  else if f.sortBy == some "distance" then
    rows
  else
    sortWith (fun a b =>
      decide (a.shop.priceLevel < b.shop.priceLevel) ||
        (a.shop.priceLevel == b.shop.priceLevel &&
          decide (b.avgRating ≤ a.avgRating))) rows

/-- The comparator `(a, b) => a.distance - b.distance` passed to
`Array.prototype.sort` for the distance re-sort; a `NaN` difference is
treated as equal (`SortCompare` maps `NaN` to `+0`). -/
def distLe (a b : RankedRow) : Bool :=
  match jsSub (a.distance.getD JSNum.nan) (b.distance.getD JSNum.nan) with
  | JSNum.nan => true
  | JSNum.num q => decide (q ≤ 0)

/-- The distance block of `getShops`: when both reference coordinates are
present (possibly `NaN`), annotate every fetched row with its computed
distance, then filter by radius when one was supplied (`distance <= radius`,
false for any `NaN`), then re-sort ascending by distance when
`sortBy === 'distance'`.  When either coordinate is absent the rows pass
through untouched and the radius is never consulted. -/
def distanceStage (p : MathPrims) (f : ShopFilters) (rows : List RankedRow) : List RankedRow :=
  match f.lat, f.lng with
  | some la, some lo =>
    let withDistance := rows.map (fun it =>
      ⟨it.shop, it.avgRating, it.reviewCount,
        some (calculateDistanceJS p la lo it.shop.lat it.shop.lng)⟩)
    let filtered :=
      match f.radius with
      | some r => withDistance.filter (fun it => jsLeb (it.distance.getD JSNum.nan) r)
      | none => withDistance
    if f.sortBy == some "distance" then sortWith distLe filtered else filtered
  | _, _ => rows

/-- The full filtered and sorted collection computed by `getShops` before
pagination (`result` in the source at the point of the `slice` call). -/
def getShopsFull (p : MathPrims) (db : DB) (f : ShopFilters) : List RankedRow :=
  distanceStage p f (sortStage f (baseQuery db f))

/-- The bounded recent-review slice hydrated per shop by `getShops`
(most recent first, capped at 5). -/
def recentReviews (db : DB) (sid : String) : List Review :=
  (sortWith (fun a b => decide (b.createdAt ≤ a.createdAt)) (shopReviews db sid)).take 5

/-- Per-shop hydration performed by `getShops` for each shop of the
resulting page: opening hours, bounded recent reviews, photos, and the
aggregates (plus the distance annotation when it was computed). -/
def hydrateShop (db : DB) (it : RankedRow) : ShopWithDetails :=
  ⟨it.shop,
   db.openingHours.filter (fun h => h.shopId == it.shop.id),
   recentReviews db it.shop.id,
   db.photos.filter (fun ph => ph.shopId == it.shop.id),
   it.avgRating, it.reviewCount, it.distance⟩

/-- `DatabaseStorage.getShops`: base query with aggregates, non-distance
sort, distance annotation / radius filter / distance re-sort, pagination
via `slice(offset, offset + limit)` (defaults 0 and 50), then per-shop
hydration of the page. -/
def getShops (p : MathPrims) (db : DB) (f : ShopFilters) : List ShopWithDetails :=
  let lim := f.limit.getD (JSNum.num 50)
  let off := f.offset.getD (JSNum.num 0)
  let result := getShopsFull p db f
  let paginated := jsSlice result off (jsAdd off lim)
  paginated.map (hydrateShop db)

/-- `DatabaseStorage.getShopBySlug`: the first shop row whose slug matches
(no publication check), hydrated with full opening hours ordered by
weekday, full review history most-recent-first, photos, and aggregate
rating computed by a separate `AVG`/`COUNT` query (`Number(avg) || 0`,
where SQL `AVG` of no rows is null and `Number(null) = 0`). -/
def getShopBySlug (db : DB) (slug : String) : Option ShopWithDetails :=
  match db.shops.find? (fun s => s.slug == slug) with
  | none => none
  | some shop =>
    let rs := shopReviews db shop.id
    let avgRaw : ℚ :=
      if rs.isEmpty then 0 else ((rs.map (fun r => (r.rating : ℚ))).sum) / (rs.length : ℚ)
    let avg := if avgRaw == 0 then 0 else avgRaw
    some ⟨shop,
      sortWith (fun a b => decide (a.weekday ≤ b.weekday))
        (db.openingHours.filter (fun h => h.shopId == shop.id)),
      sortWith (fun a b => decide (b.createdAt ≤ a.createdAt)) rs,
      db.photos.filter (fun ph => ph.shopId == shop.id),
      avg, rs.length, none⟩

/-- The single merged failure mode of the review mutations: `Error('Review
not found or unauthorized')`, surfaced as HTTP 404 by the route layer. -/
inductive StorageError where
  | notFoundOrUnauthorized : StorageError
deriving DecidableEq, Repr

/-- `DatabaseStorage.getUserReviewForShop`: the review row matching both
the user id and the shop id (SQL equality, so anonymous reviews with a
null `userId` never match). -/
def getUserReviewForShop (db : DB) (userId shopId : String) : Option Review :=
  db.reviews.find? (fun r => r.userId == some userId && r.shopId == shopId)

/-- The argument record of `DatabaseStorage.createReview` as assembled by
the review-creation route: validated body fields plus the identity fields
the route attaches. -/
structure InsertReviewData where
  shopId : String
  rating : ℕ
  text : String
  userId : Option String
  userHash : Option String
  isAnonymous : Bool
  authorName : Option String
deriving DecidableEq, Repr

/-- `DatabaseStorage.createReview`: inserts a review row.  The stored
`userId`/`userHash` are the given ones coerced to null when falsy, and the
stored `authorName` is written unconditionally from the identity mode
(null when a user id is present, the fixed string `"Anonymer Nutzer"`
otherwise), overriding any caller-supplied `authorName` in the spread.
`newId` is the freshly generated row id and `now` the insertion instant. -/
def createReview (db : DB) (rv : InsertReviewData) (newId : String) (now : ℕ) : Review × DB :=
  let newReview : Review :=
    { id := newId
      shopId := rv.shopId
      userId := if jsTruthyStr rv.userId then rv.userId else none
      userHash := if jsTruthyStr rv.userHash then rv.userHash else none
      isAnonymous := rv.isAnonymous
      authorName := if jsTruthyStr rv.userId then none else some "Anonymer Nutzer"
      rating := rv.rating
      text := rv.text
      isEdited := false
      editedAt := none
      createdAt := now
      updatedAt := now }
  (newReview, { db with reviews := db.reviews ++ [newReview] })

/-- The session user attached to an authenticated request. -/
structure SessionUserM where
  id : String
  name : String
deriving DecidableEq, Repr

/-- The validated body of `POST /api/reviews`. -/
structure ReviewBody where
  shopId : String
  rating : ℕ
  text : String
deriving DecidableEq, Repr

/-- Outcome of the review-creation route: HTTP 409 conflict, or HTTP 201
with the created review. -/
inductive CreateReviewOutcome where
  | conflict : CreateReviewOutcome
  | created : Review → CreateReviewOutcome
deriving DecidableEq, Repr

/-- The `POST /api/reviews` handler after successful schema validation:
when a session user exists and already has a review for the shop, answer
409 and insert nothing; otherwise insert via `createReview` with the
identity fields the route attaches (`userId`/`authorName` from the session
user, or the request fingerprint hash for anonymous callers). -/
def postReview (db : DB) (currentUser : Option SessionUserM) (body : ReviewBody)
    (fingerprintHash : String) (newId : String) (now : ℕ) : CreateReviewOutcome × DB :=
  match currentUser with
  | some u =>
    match getUserReviewForShop db u.id body.shopId with
    | some _ => (CreateReviewOutcome.conflict, db)
    | none =>
      let ins := createReview db
        ⟨body.shopId, body.rating, body.text, some u.id, none, false, some u.name⟩ newId now
      (CreateReviewOutcome.created ins.1, ins.2)
  | none =>
    let ins := createReview db
      ⟨body.shopId, body.rating, body.text, none, some fingerprintHash, true, none⟩ newId now
    (CreateReviewOutcome.created ins.1, ins.2)

/-- The patch accepted by `DatabaseStorage.updateReview` (partial review
body). -/
structure UpdateReviewData where
  rating : Option ℕ
  text : Option String
deriving DecidableEq, Repr

/-- Application of an update patch to a review row, with the edit-tracking
side effects (`isEdited`, `editedAt`, `updatedAt`). -/
def applyReviewUpdates (u : UpdateReviewData) (now : ℕ) (r : Review) : Review :=
  { r with
    rating := u.rating.getD r.rating
    text := u.text.getD r.text
    isEdited := true
    editedAt := some now
    updatedAt := now }

/-- Whether a review row is hit by the ownership-checked WHERE clause
`id = reviewId AND userId = ownerId` of the review mutations (SQL equality,
so a null `userId` never matches). -/
def ownedReviewHit (reviewId ownerId : String) (r : Review) : Bool :=
  r.id == reviewId && r.userId == some ownerId

/-- `DatabaseStorage.updateReview`: a single conditional UPDATE whose WHERE
clause bakes in the ownership check; when no row is returned the merged
`Review not found or unauthorized` error is thrown. -/
def updateReview (db : DB) (reviewId ownerId : String) (updates : UpdateReviewData)
    (now : ℕ) : Except StorageError (Review × DB) :=
  match db.reviews.find? (ownedReviewHit reviewId ownerId) with
  | none => Except.error StorageError.notFoundOrUnauthorized
  | some r =>
    Except.ok (applyReviewUpdates updates now r,
      { db with reviews := db.reviews.map (fun x =>
          if ownedReviewHit reviewId ownerId x then applyReviewUpdates updates now x else x) })

/-- `DatabaseStorage.deleteReview`: a single conditional DELETE with the
same ownership-checked WHERE clause; a row count of zero raises the merged
`Review not found or unauthorized` error. -/
def deleteReview (db : DB) (reviewId ownerId : String) : Except StorageError DB :=
  let remaining := db.reviews.filter (fun r => !(ownedReviewHit reviewId ownerId r))
  if remaining.length == db.reviews.length then
    Except.error StorageError.notFoundOrUnauthorized
  else
    Except.ok { db with reviews := remaining }

/-- `DatabaseStorage.addUserFavorite`: select the existing favorites for
the pair; when one exists return the first without inserting, otherwise
insert a fresh row. -/
def addUserFavorite (db : DB) (userId shopId : String) (newId : String) (now : ℕ) :
    UserFavorite × DB :=
  let existing := db.userFavorites.filter (fun fv => fv.userId == userId && fv.shopId == shopId)
  match existing with
  | e :: _ => (e, db)
  | [] =>
    let fav : UserFavorite := ⟨newId, userId, shopId, now⟩
    (fav, { db with userFavorites := db.userFavorites ++ [fav] })

/-- `DatabaseStorage.removeUserFavorite`: an unconditional DELETE for the
pair; deleting nothing is not an error. -/
def removeUserFavorite (db : DB) (userId shopId : String) : DB :=
  { db with userFavorites :=
      db.userFavorites.filter (fun fv => !(fv.userId == userId && fv.shopId == shopId)) }

/-- Number of favorite rows stored for a (user, shop) pair. -/
def favoriteCount (db : DB) (userId shopId : String) : ℕ :=
  (db.userFavorites.filter (fun fv => fv.userId == userId && fv.shopId == shopId)).length

/-- Client `isShopOpen`: the shop is open at the instant with weekday
`currentDay` (0 = Sunday) and time-of-day `currentTime` (HHMM encoding)
when today's entry has both times set and the instant lies between them,
overnight ranges (close < open) wrapping past midnight.  Missing entry,
null or unparsable times, or an empty list give closed. -/
def isShopOpen (hoursList : List OpeningHoursRow) (currentDay currentTime : ℕ) : Bool :=
  if hoursList.isEmpty then false
  else
    match hoursList.find? (fun h => h.weekday == currentDay) with
    | none => false
    | some today =>
      match today.openTime, today.closeTime with
      | some openT, some closeT =>
        if closeT < openT then
          decide (openT ≤ currentTime) || decide (currentTime ≤ closeT)
        else
          decide (openT ≤ currentTime) && decide (currentTime ≤ closeT)
      | _, _ => false

/-- Concrete transcendental primitives used only to evaluate witnesses and
counterexamples on closed inputs (the theorems quantify over arbitrary
primitives). -/
def testPrims : MathPrims := ⟨fun q => q, fun q => q, fun q => q, fun y x => y + x, 3⟩

/-- Fixture: an unpublished shop. -/
def unpublishedShop : Shop :=
  ⟨"s1", "doener-one", "Doener One", "Freiberg", 50, 13, 1, false, false, false, false, false⟩

/-- Fixture: a published shop. -/
def publishedShop : Shop :=
  ⟨"s2", "doener-two", "Doener Two", "Freiberg", 50, 13, 2, true, true, true, true, true⟩

/-- Fixture: an authenticated review of the published shop by user u1. -/
def reviewR1 : Review :=
  ⟨"r1", "s2", some "u1", none, false, none, 4, "gut", false, none, 10, 10⟩

/-- Fixture database with one published shop, one unpublished shop and one
authenticated review. -/
def dbW : DB := ⟨[publishedShop, unpublishedShop], [reviewR1], [], [], []⟩

/-- Fixture database with a single published shop and no reviews. -/
def dbC3 : DB := ⟨[publishedShop], [], [], [], []⟩

/-- Filters with a valid reference point and a malformed (`NaN`) radius. -/
def fRadiusNaN : ShopFilters :=
  { emptyFilters with
    lat := some (JSNum.num 50), lng := some (JSNum.num 13), radius := some JSNum.nan }

/-- The same filters without the radius field. -/
def fNoRadius : ShopFilters :=
  { emptyFilters with lat := some (JSNum.num 50), lng := some (JSNum.num 13) }

/-- Filters with no reference point (used to show the radius is inert). -/
def fLatAbsent : ShopFilters := emptyFilters

/-- Fixture opening hours: Monday 09:00 - 17:00. -/
def sampleHours : List OpeningHoursRow := [⟨"s2", 1, some 900, some 1700⟩]

/-! Infrastructure lemmas. -/

theorem mem_insertSorted {α : Type} (le : α → α → Bool) (a x : α) (l : List α) :
    x ∈ insertSorted le a l ↔ x = a ∨ x ∈ l := by
  induction l with
  | nil => simp [insertSorted]
  | cons b bs ih =>
    simp only [insertSorted]
    split
    · simp [or_comm, or_assoc, or_left_comm]
    · simp [ih]
      tauto

theorem mem_sortWith {α : Type} (le : α → α → Bool) (x : α) (l : List α) :
    x ∈ sortWith le l ↔ x ∈ l := by
  induction l with
  | nil => simp [sortWith]
  | cons a as ih => simp [sortWith, mem_insertSorted, ih]

@[simp] theorem jsLeb_nan_right (x : JSNum) : jsLeb x JSNum.nan = false := by
  cases x <;> rfl

@[simp] theorem jsAdd_nan_right (x : JSNum) : jsAdd x JSNum.nan = JSNum.nan := by
  cases x <;> rfl

@[simp] theorem jsAdd_nan_left (x : JSNum) : jsAdd JSNum.nan x = JSNum.nan := by
  cases x <;> rfl

theorem jsSlice_end_nan {α : Type} (l : List α) (s : JSNum) :
    jsSlice l s JSNum.nan = [] := by
  have hmin : min (0:ℤ) (l.length:ℤ) = 0 := by
    simp
  simp [jsSlice, jsToIntOrZero, hmin]

theorem jsSlice_nil {α : Type} (s e : JSNum) : jsSlice ([] : List α) s e = [] := by
  simp [jsSlice]

theorem jsSlice_nat {α : Type} (l : List α) (a b : ℕ) :
    jsSlice l (JSNum.num (a:ℚ)) (JSNum.num (b:ℚ)) = (l.take b).drop a := by
  have h0a : ¬ ((a:ℤ) < 0) := by omega
  have h0b : ¬ ((b:ℤ) < 0) := by omega
  have ha : jsTruncInt ((a:ℕ):ℚ) = (a:ℤ) := by
    simp [jsTruncInt]
  have hb : jsTruncInt ((b:ℕ):ℚ) = (b:ℤ) := by
    simp [jsTruncInt]
  simp only [jsSlice, jsToIntOrZero, ha, hb, if_neg h0a, if_neg h0b]
  have hminb : (min (b:ℤ) (l.length:ℤ)).toNat = min b l.length := by omega
  have hmina : (min (a:ℤ) (l.length:ℤ)).toNat = min a l.length := by omega
  rw [hminb, hmina]
  have htake : l.take (min b l.length) = l.take b := by
    rw [← List.take_take, List.take_length]
  rw [htake]
  rcases le_or_lt a l.length with h | h
  · rw [min_eq_left h]
  · rw [min_eq_right (le_of_lt h)]
    rw [List.drop_eq_nil_of_le (by simp [List.length_take]),
      List.drop_eq_nil_of_le (by simp [List.length_take]; omega)]

theorem flatMap_range_chunks {α : Type} (l : List α) (L : ℕ) (k : ℕ) :
    (List.range k).flatMap (fun i => (l.drop (i * L)).take L) = l.take (k * L) := by
  induction k with
  | zero => simp
  | succ k ih =>
    rw [List.range_succ, List.flatMap_append, ih]
    simp only [List.flatMap_cons, List.flatMap_nil, List.append_nil]
    rw [← List.take_add]
    congr 1
    ring

/-- Changing only the pagination fields of the filter object does not change
the pre-pagination pipeline. -/
theorem getShopsFull_pagination_irrelevant (p : MathPrims) (db : DB) (f : ShopFilters)
    (a b : Option JSNum) :
    getShopsFull p db { f with offset := a, limit := b } = getShopsFull p db f := rfl

/-- `getShops` with natural-number pagination arguments is exactly the
`[offset, offset+limit)` window of the pre-pagination pipeline, hydrated. -/
theorem getShops_page (p : MathPrims) (db : DB) (f : ShopFilters) (o L : ℕ) :
    getShops p db { f with offset := some (JSNum.num (o:ℚ)), limit := some (JSNum.num (L:ℚ)) } =
      (((getShopsFull p db f).drop o).take L).map (hydrateShop db) := by
  have hadd : jsAdd (JSNum.num (o:ℚ)) (JSNum.num (L:ℚ)) = JSNum.num (((o+L : ℕ)):ℚ) := by
    simp [jsAdd]
  simp only [getShops, Option.getD_some, getShopsFull_pagination_irrelevant, hadd,
    jsSlice_nat, List.take_drop]

/-- `getShops` without pagination fields uses the defaults offset 0 and
limit 50. -/
theorem getShops_default_page (p : MathPrims) (db : DB) (f : ShopFilters)
    (ho : f.offset = none) (hl : f.limit = none) :
    getShops p db f = ((getShopsFull p db f).take 50).map (hydrateShop db) := by
  have h0 : (JSNum.num (0:ℚ)) = JSNum.num ((0:ℕ):ℚ) := by norm_num
  have h50 : (JSNum.num (50:ℚ)) = JSNum.num ((50:ℕ):ℚ) := by norm_num
  have hadd : jsAdd (JSNum.num ((0:ℕ):ℚ)) (JSNum.num ((50:ℕ):ℚ)) = JSNum.num (((50:ℕ)):ℚ) := by
    simp [jsAdd]
  simp only [getShops, ho, hl, Option.getD_none, h0, h50, hadd, jsSlice_nat, List.drop_zero]

theorem mem_baseQuery (db : DB) (f : ShopFilters) (row : RankedRow)
    (h : row ∈ baseQuery db f) :
    row.shop ∈ db.shops ∧ matchesBaseFilters f row.shop = true ∧
      row.avgRating = avgRatingOf db row.shop.id := by
  unfold baseQuery at h
  obtain ⟨s, hs, rfl⟩ := List.mem_map.mp h
  obtain ⟨hmem, hfil⟩ := List.mem_filter.mp hs
  exact ⟨hmem, hfil, rfl⟩

theorem mem_sortStage (f : ShopFilters) (rows : List RankedRow) (row : RankedRow) :
    row ∈ sortStage f rows ↔ row ∈ rows := by
  unfold sortStage
  split
  · exact mem_sortWith _ _ _
  · split
    · exact mem_sortWith _ _ _
    · split
      · exact Iff.rfl
      · exact mem_sortWith _ _ _

theorem mem_distanceStage (p : MathPrims) (f : ShopFilters) (rows : List RankedRow)
    (row : RankedRow) (h : row ∈ distanceStage p f rows) :
    ∃ r0 ∈ rows, row.shop = r0.shop ∧ row.avgRating = r0.avgRating := by
  unfold distanceStage at h
  cases hla : f.lat with
  | none =>
    rw [hla] at h
    cases hlo : f.lng with
    | none => rw [hlo] at h; exact ⟨row, h, rfl, rfl⟩
    | some lo => rw [hlo] at h; exact ⟨row, h, rfl, rfl⟩
  | some la =>
    rw [hla] at h
    cases hlo : f.lng with
    | none => rw [hlo] at h; exact ⟨row, h, rfl, rfl⟩
    | some lo =>
      rw [hlo] at h
      simp only at h
      have hfil : row ∈ (match f.radius with
          | some r => (rows.map (fun (it : RankedRow) =>
              (⟨it.shop, it.avgRating, it.reviewCount,
                some (calculateDistanceJS p la lo it.shop.lat it.shop.lng)⟩ : RankedRow))).filter
                (fun (it : RankedRow) => jsLeb (it.distance.getD JSNum.nan) r)
          | none => rows.map (fun (it : RankedRow) =>
              (⟨it.shop, it.avgRating, it.reviewCount,
                some (calculateDistanceJS p la lo it.shop.lat it.shop.lng)⟩ : RankedRow))) := by
        split at h
        · exact (mem_sortWith _ _ _).mp h
        · exact h
      have hmap : row ∈ rows.map (fun (it : RankedRow) =>
          (⟨it.shop, it.avgRating, it.reviewCount,
            some (calculateDistanceJS p la lo it.shop.lat it.shop.lng)⟩ : RankedRow)) := by
        rcases hr : f.radius with _ | r
        · rw [hr] at hfil; exact hfil
        · rw [hr] at hfil; exact (List.mem_filter.mp hfil).1
      obtain ⟨it, hit, rfl⟩ := List.mem_map.mp hmap
      exact ⟨it, hit, rfl, rfl⟩

theorem mem_getShopsFull (p : MathPrims) (db : DB) (f : ShopFilters) (row : RankedRow)
    (h : row ∈ getShopsFull p db f) :
    row.shop ∈ db.shops ∧ matchesBaseFilters f row.shop = true ∧
      row.avgRating = avgRatingOf db row.shop.id := by
  unfold getShopsFull at h
  obtain ⟨r0, hr0, hshop, havg⟩ := mem_distanceStage p f _ row h
  have hr1 := (mem_sortStage f _ r0).mp hr0
  obtain ⟨hmem, hfil, havg0⟩ := mem_baseQuery db f r0 hr1
  rw [hshop, havg]
  exact ⟨hmem, hfil, havg0⟩

theorem mem_getShops (p : MathPrims) (db : DB) (f : ShopFilters) (x : ShopWithDetails)
    (h : x ∈ getShops p db f) :
    ∃ row ∈ getShopsFull p db f, x = hydrateShop db row := by
  unfold getShops at h
  simp only at h
  obtain ⟨row, hrow, rfl⟩ := List.mem_map.mp h
  refine ⟨row, ?_, rfl⟩
  unfold jsSlice at hrow
  exact List.mem_of_mem_take (List.mem_of_mem_drop hrow)

theorem isPublished_of_matchesBaseFilters (f : ShopFilters) (s : Shop)
    (h : matchesBaseFilters f s = true) : s.isPublished = true := by
  unfold matchesBaseFilters at h
  simp only [Bool.and_eq_true] at h
  exact h.1.1.1.1.1

/-- The detail-query aggregate `Number(AVG(rating)) || 0` equals the
list-query aggregate `COALESCE(AVG(rating), 0)`. -/
theorem detail_avg_eq (q : ℚ) : (if q == 0 then 0 else q) = q := by
  split
  · next hq => exact ((beq_iff_eq).mp hq).symm
  · rfl

/-! Claim theorems. -/

/-- C8: server-side and client-side distance are derived from the identical
underlying Haversine kilometre value (Earth radius 6371 km, shared
transcendental primitives) and differ only in unit and rounding: the server
returns `round(d_km * 1000)` metres and the client `round(d_km * 100) / 100`
kilometres for the same `d_km`. -/
theorem c8_distance_refinement (p : MathPrims) (lat1 lng1 lat2 lng2 : ℚ) :
    haversineKmServer p lat1 lng1 lat2 lng2 = haversineKmClient p lat1 lng1 lat2 lng2 ∧
    calculateDistance p lat1 lng1 lat2 lng2 =
      jsRound (haversineKmClient p lat1 lng1 lat2 lng2 * 1000) ∧
    calculateDistanceClient p lat1 lng1 lat2 lng2 =
      (jsRound (haversineKmClient p lat1 lng1 lat2 lng2 * 100) : ℚ) / 100 := by
  exact ⟨rfl, rfl, rfl⟩

/-- C9 counterexample: with opening hours Monday 09:00-17:00, at Monday
17:00 (exactly the closing time) `isShopOpen` reports the shop open,
although the claimed half-open interval `[open, close)` excludes the
closing instant. -/
theorem c9_counterexample :
    isShopOpen sampleHours 1 1700 = true ∧ ¬ (900 ≤ 1700 ∧ 1700 < 1700) := by
  exact ⟨by decide, by decide⟩

/-- C9 amended: `isShopOpen` reports open exactly when the first entry for
the instant's weekday has both times set and the instant lies in the CLOSED
interval `[open, close]` (inclusive at the closing time), with overnight
ranges (`close < open`) wrapping past midnight, also inclusive at both
ends; it reports closed when the entry is missing or has a null or
unparsable time. -/
theorem c9_isShopOpen_characterization (hoursList : List OpeningHoursRow) (d t : ℕ) :
    isShopOpen hoursList d t = true ↔
      ∃ hrow, hoursList.find? (fun x => x.weekday == d) = some hrow ∧
        ∃ openT closeT, hrow.openTime = some openT ∧ hrow.closeTime = some closeT ∧
          ((closeT < openT ∧ (openT ≤ t ∨ t ≤ closeT)) ∨
           (openT ≤ closeT ∧ openT ≤ t ∧ t ≤ closeT)) := by
  unfold isShopOpen
  cases hoursList with
  | nil => simp
  | cons h0 rest =>
    simp only [List.isEmpty_cons, if_false, Bool.false_eq_true]
    cases hfind : (h0 :: rest).find? (fun x => x.weekday == d) with
    | none => simp
    | some today =>
      simp only [Option.some.injEq]
      cases hop : today.openTime with
      | none =>
        simp only
        constructor
        · intro hfalse; exact absurd hfalse (by simp)
        · rintro ⟨hrow, rfl, oT, cT, hoT, hcT, hcond⟩
          rw [hop] at hoT; exact absurd hoT (by simp)
      | some oT =>
        cases hcl : today.closeTime with
        | none =>
          simp only
          constructor
          · intro hfalse; exact absurd hfalse (by simp)
          · rintro ⟨hrow, rfl, oT2, cT2, hoT, hcT, hcond⟩
            rw [hcl] at hcT; exact absurd hcT (by simp)
        | some cT =>
          simp only
          constructor
          · intro htrue
            refine ⟨today, rfl, oT, cT, hop, hcl, ?_⟩
            by_cases hlt : cT < oT
            · rw [if_pos hlt] at htrue
              simp only [Bool.or_eq_true, decide_eq_true_eq] at htrue
              exact Or.inl ⟨hlt, htrue⟩
            · rw [if_neg hlt] at htrue
              simp only [Bool.and_eq_true, decide_eq_true_eq] at htrue
              exact Or.inr ⟨Nat.le_of_not_lt hlt, htrue⟩
          · rintro ⟨hrow, rfl, oT2, cT2, hoT, hcT, hcond⟩
            rw [hop] at hoT; rw [hcl] at hcT
            obtain rfl : oT = oT2 := by injection hoT
            obtain rfl : cT = cT2 := by injection hcT
            rcases hcond with ⟨hlt, hin⟩ | ⟨hle, hin1, hin2⟩
            · rw [if_pos hlt]
              simp only [Bool.or_eq_true, decide_eq_true_eq]
              exact hin
            · rw [if_neg (Nat.not_lt.mpr hle)]
              simp only [Bool.and_eq_true, decide_eq_true_eq]
              exact ⟨hin1, hin2⟩

/-- C10: the stored review's `authorName` is determined solely by the
identity mode and never by any caller-supplied `authorName`:
`createReview` stores null whenever a user id is present (discarding the
name the route supplies) and the fixed string `"Anonymer Nutzer"` for every
anonymous review; at the route level an authenticated creation stores null
and an anonymous creation stores `"Anonymer Nutzer"`. -/
theorem c10_author_name (db : DB) (rv : InsertReviewData) (newId : String) (now : ℕ)
    (u : SessionUserM) (body : ReviewBody) (fp : String)
    (hid : ¬ u.id = "")
    (hnew : getUserReviewForShop db u.id body.shopId = none) :
    (createReview db rv newId now).1.authorName =
      (if jsTruthyStr rv.userId then none else some "Anonymer Nutzer") ∧
    (∀ an : Option String,
      (createReview db { rv with authorName := an } newId now).1.authorName =
        (createReview db rv newId now).1.authorName) ∧
    (∃ r : Review, (postReview db (some u) body fp newId now).1 =
      CreateReviewOutcome.created r ∧ r.authorName = none) ∧
    (∀ db2 : DB, ∃ r : Review, (postReview db2 none body fp newId now).1 =
      CreateReviewOutcome.created r ∧ r.authorName = some "Anonymer Nutzer") := by
  refine ⟨rfl, fun an => rfl, ?_, fun db2 => ⟨_, rfl, rfl⟩⟩
  simp only [postReview]
  rw [hnew]
  refine ⟨_, rfl, ?_⟩
  simp only [createReview, jsTruthyStr]
  have hbeq : (u.id == "") = false := beq_eq_false_iff_ne.mpr hid
  simp [hbeq]

/-- C10 witness: evaluating the theorem on a concrete database, review
input and session user. -/
theorem c10_author_name_witness :
    ((createReview dbC3 ⟨"s2", 5, "gut", some "u9", none, false, some "Greta"⟩ "r7" 42).1.authorName =
      (if jsTruthyStr (some "u9") then none else some "Anonymer Nutzer") ∧
    (∀ an : Option String,
      (createReview dbC3 ⟨"s2", 5, "gut", some "u9", none, false, an⟩ "r7" 42).1.authorName =
        (createReview dbC3 ⟨"s2", 5, "gut", some "u9", none, false, some "Greta"⟩ "r7" 42).1.authorName) ∧
    (∃ r : Review, (postReview dbC3 (some ⟨"u9", "Greta"⟩) ⟨"s2", 5, "gut"⟩ "fphash" "r7" 42).1 =
      CreateReviewOutcome.created r ∧ r.authorName = none) ∧
    (∀ db2 : DB, ∃ r : Review, (postReview db2 none ⟨"s2", 5, "gut"⟩ "fphash" "r7" 42).1 =
      CreateReviewOutcome.created r ∧ r.authorName = some "Anonymer Nutzer")) :=
  c10_author_name dbC3 ⟨"s2", 5, "gut", some "u9", none, false, some "Greta"⟩ "r7" 42
    ⟨"u9", "Greta"⟩ ⟨"s2", 5, "gut"⟩ "fphash" (by decide) rfl

/-- Closed evaluation of the pre-pagination pipeline on the fixture
database with no filters: only the published shop survives, annotated with
its aggregate rating. -/
theorem getShopsFull_dbW_eval :
    getShopsFull testPrims dbW emptyFilters =
      [⟨publishedShop, 4, 1, none⟩] := by
  norm_num [getShopsFull, baseQuery, sortStage, distanceStage, sortWith, insertSorted,
    emptyFilters, dbW, matchesBaseFilters, publishedShop, unpublishedShop,
    avgRatingOf, shopReviews, reviewR1]

/-- C2 counterexample: the public detail lookup returns an unpublished
shop — `getShopBySlug` never consults the publication flag. -/
theorem c2_counterexample :
    unpublishedShop.isPublished = false ∧
    (getShopBySlug dbW "doener-one").map (fun d => d.shop) = some unpublishedShop := by
  exact ⟨rfl, rfl⟩

/-- C2 amended: a shop with publication flag false never appears in the
results of `getShops` for any filter; but the public shop-detail lookup
`getShopBySlug` performs no publication check: whenever the first shop row
carrying the requested slug exists — published or not — it is returned. -/
theorem c2_publication (p : MathPrims) (db : DB) (f : ShopFilters) (x : ShopWithDetails)
    (hx : x ∈ getShops p db f) :
    x.shop.isPublished = true ∧
    ∀ slug s, db.shops.find? (fun t => t.slug == slug) = some s →
      ∃ d, getShopBySlug db slug = some d ∧ d.shop = s := by
  constructor
  · obtain ⟨row, hrow, rfl⟩ := mem_getShops p db f x hx
    obtain ⟨hmem, hfil, havg⟩ := mem_getShopsFull p db f row hrow
    exact isPublished_of_matchesBaseFilters f row.shop hfil
  · intro slug s hfind
    unfold getShopBySlug
    rw [hfind]
    exact ⟨_, rfl, rfl⟩

/-- C2 witness: the amended theorem evaluated at a concrete database whose
list query returns the published fixture shop. -/
theorem c2_publication_witness :
    (hydrateShop dbW ⟨publishedShop, 4, 1, none⟩).shop.isPublished = true ∧
    ∀ slug s, dbW.shops.find? (fun t => t.slug == slug) = some s →
      ∃ d, getShopBySlug dbW slug = some d ∧ d.shop = s :=
  c2_publication testPrims dbW emptyFilters (hydrateShop dbW ⟨publishedShop, 4, 1, none⟩)
    (by rw [getShops_default_page testPrims dbW emptyFilters rfl rfl,
          getShopsFull_dbW_eval]
        simp)

/-- C4: for the same shop and review set, the aggregate rating of the list
query (`COALESCE(AVG, 0)` in `getShops`) and of the detail query
(`Number(AVG) || 0` in `getShopBySlug`) agree exactly, and with zero
reviews both are 0. -/
theorem c4_avg_consistency (p : MathPrims) (db : DB) (f : ShopFilters) (x : ShopWithDetails)
    (hx : x ∈ getShops p db f)
    (hslug : db.shops.find? (fun t => t.slug == x.shop.slug) = some x.shop) :
    ∃ d, getShopBySlug db x.shop.slug = some d ∧ d.avgRating = x.avgRating ∧
      (shopReviews db x.shop.id = [] → x.avgRating = 0) := by
  obtain ⟨row, hrow, rfl⟩ := mem_getShops p db f x hx
  obtain ⟨hmem, hfil, havg⟩ := mem_getShopsFull p db f row hrow
  unfold getShopBySlug
  rw [hslug]
  refine ⟨_, rfl, ?_, ?_⟩
  · show (if (avgRatingOf db row.shop.id == 0) then (0:ℚ) else avgRatingOf db row.shop.id) =
      (hydrateShop db row).avgRating
    rw [detail_avg_eq]
    exact havg.symm
  · intro hempty
    show row.avgRating = 0
    rw [havg]
    have hempty2 : shopReviews db row.shop.id = [] := hempty
    simp only [avgRatingOf, hempty2, List.isEmpty_nil, if_true]

/-- C4 witness: the theorem evaluated on the fixture database, where the
published shop has one review with rating 4. -/
theorem c4_avg_consistency_witness :
    ∃ d, getShopBySlug dbW (hydrateShop dbW ⟨publishedShop, 4, 1, none⟩).shop.slug = some d ∧
      d.avgRating = (hydrateShop dbW ⟨publishedShop, 4, 1, none⟩).avgRating ∧
      (shopReviews dbW (hydrateShop dbW ⟨publishedShop, 4, 1, none⟩).shop.id = [] →
        (hydrateShop dbW ⟨publishedShop, 4, 1, none⟩).avgRating = 0) :=
  c4_avg_consistency testPrims dbW emptyFilters (hydrateShop dbW ⟨publishedShop, 4, 1, none⟩)
    (by rw [getShops_default_page testPrims dbW emptyFilters rfl rfl,
          getShopsFull_dbW_eval]
        simp)
    (by rfl)

/-- C5: a second authenticated `createReview` by a user who already has a
review for the shop answers the 409 conflict and inserts nothing, while an
anonymous creation (fingerprint identity) is never subject to the duplicate
check and always succeeds. -/
theorem c5_review_uniqueness (db : DB) (u : SessionUserM) (body : ReviewBody)
    (fp newId : String) (now : ℕ)
    (hdup : (getUserReviewForShop db u.id body.shopId).isSome = true) :
    postReview db (some u) body fp newId now = (CreateReviewOutcome.conflict, db) ∧
    ∀ db2 : DB, ∃ r : Review, postReview db2 none body fp newId now =
      (CreateReviewOutcome.created r, { db2 with reviews := db2.reviews ++ [r] }) := by
  constructor
  · obtain ⟨r0, hr0⟩ := Option.isSome_iff_exists.mp hdup
    simp only [postReview]
    rw [hr0]
  · intro db2
    exact ⟨_, rfl⟩

/-- C5 witness: on the fixture database user u1 already reviewed shop s2;
the theorem is evaluated there. -/
theorem c5_review_uniqueness_witness :
    postReview dbW (some ⟨"u1", "Uwe"⟩) ⟨"s2", 5, "toll"⟩ "fphash" "r9" 99 =
      (CreateReviewOutcome.conflict, dbW) ∧
    ∀ db2 : DB, ∃ r : Review, postReview db2 none (⟨"s2", 5, "toll"⟩ : ReviewBody) "fphash" "r9" 99 =
      (CreateReviewOutcome.created r, { db2 with reviews := db2.reviews ++ [r] }) :=
  c5_review_uniqueness dbW ⟨"u1", "Uwe"⟩ ⟨"s2", 5, "toll"⟩ "fphash" "r9" 99 (by decide)

/-- C6: `updateReview` and `deleteReview` succeed exactly when a review
with the given id exists whose `userId` equals the given owner; in every
other case (nonexistent id, another owner, or an anonymous review with a
null `userId`) both fail with the single merged NotFoundOrUnauthorized
error, so a non-owner call is indistinguishable from a nonexistent id. -/
theorem c6_ownership (db : DB) (reviewId ownerId : String) (updates : UpdateReviewData)
    (now : ℕ) :
    ((∃ r ∈ db.reviews, r.id = reviewId ∧ r.userId = some ownerId) →
      (∃ res, updateReview db reviewId ownerId updates now = Except.ok res) ∧
      (∃ db2, deleteReview db reviewId ownerId = Except.ok db2)) ∧
    ((¬ ∃ r ∈ db.reviews, r.id = reviewId ∧ r.userId = some ownerId) →
      updateReview db reviewId ownerId updates now =
        Except.error StorageError.notFoundOrUnauthorized ∧
      deleteReview db reviewId ownerId =
        Except.error StorageError.notFoundOrUnauthorized) := by
  have hchar : ∀ r : Review, ownedReviewHit reviewId ownerId r = true ↔
      (r.id = reviewId ∧ r.userId = some ownerId) := by
    intro r
    simp [ownedReviewHit]
  constructor
  · rintro ⟨r, hr, hid, hown⟩
    constructor
    · have hfind : (db.reviews.find? (ownedReviewHit reviewId ownerId)).isSome = true :=
        List.find?_isSome.mpr ⟨r, hr, (hchar r).mpr ⟨hid, hown⟩⟩
      obtain ⟨r0, hr0⟩ := Option.isSome_iff_exists.mp hfind
      simp only [updateReview]
      rw [hr0]
      exact ⟨_, rfl⟩
    · simp only [deleteReview]
      have hlt : (db.reviews.filter (fun x => !(ownedReviewHit reviewId ownerId x))).length ≠
          db.reviews.length := by
        intro heq
        have hall := List.filter_length_eq_length.mp heq
        have := hall r hr
        rw [(hchar r).mpr ⟨hid, hown⟩] at this
        simp at this
      rw [if_neg (by simpa using hlt)]
      exact ⟨_, rfl⟩
  · intro hnone
    have hall : ∀ r ∈ db.reviews, ¬ (ownedReviewHit reviewId ownerId r = true) := by
      intro r hr hhit
      exact hnone ⟨r, hr, (hchar r).mp hhit⟩
    constructor
    · simp only [updateReview]
      rw [List.find?_eq_none.mpr hall]
    · simp only [deleteReview]
      have hself : db.reviews.filter (fun x => !(ownedReviewHit reviewId ownerId x)) =
          db.reviews := by
        apply List.filter_eq_self.mpr
        intro r hr
        simpa using hall r hr
      rw [if_pos (by simp [hself])]

/-- C6 witness: on the fixture database, updating and deleting review r1 as
its owner u1 succeeds, and as the non-owner u2 both calls fail with the
merged error. -/
theorem c6_ownership_witness :
    ((∃ res, updateReview dbW "r1" "u1" ⟨some 5, none⟩ 99 = Except.ok res) ∧
     (∃ db2, deleteReview dbW "r1" "u1" = Except.ok db2)) ∧
    (updateReview dbW "r1" "u2" ⟨some 5, none⟩ 99 =
        Except.error StorageError.notFoundOrUnauthorized ∧
      deleteReview dbW "r1" "u2" =
        Except.error StorageError.notFoundOrUnauthorized) :=
  ⟨(c6_ownership dbW "r1" "u1" ⟨some 5, none⟩ 99).1
      ⟨reviewR1, by decide, by decide, by decide⟩,
   (c6_ownership dbW "r1" "u2" ⟨some 5, none⟩ 99).2 (by decide)⟩

/-- C7: `addFavorite` is idempotent — when a favorite for the pair exists
the existing first record is returned and the database is unchanged, so
starting from no favorite for the pair, two sequential calls leave exactly
one record — and `removeFavorite` on a pair with no favorite is a no-op
success. -/
theorem c7_favorites (db : DB) (userId shopId newId1 newId2 : String) (t1 t2 : ℕ) :
    (favoriteCount db userId shopId = 0 →
      (addUserFavorite (addUserFavorite db userId shopId newId1 t1).2 userId shopId newId2 t2 =
        ((addUserFavorite db userId shopId newId1 t1).1,
         (addUserFavorite db userId shopId newId1 t1).2) ∧
       favoriteCount
         (addUserFavorite (addUserFavorite db userId shopId newId1 t1).2
           userId shopId newId2 t2).2 userId shopId = 1)) ∧
    (∀ e rest, db.userFavorites.filter
        (fun fv => fv.userId == userId && fv.shopId == shopId) = e :: rest →
      addUserFavorite db userId shopId newId1 t1 = (e, db)) ∧
    (favoriteCount db userId shopId = 0 → removeUserFavorite db userId shopId = db) := by
  refine ⟨?_, ?_, ?_⟩
  · intro hzero
    have hnil : db.userFavorites.filter
        (fun fv => fv.userId == userId && fv.shopId == shopId) = [] :=
      List.length_eq_zero.mp hzero
    have hstep1 : addUserFavorite db userId shopId newId1 t1 =
        (⟨newId1, userId, shopId, t1⟩,
         { db with userFavorites := db.userFavorites ++ [⟨newId1, userId, shopId, t1⟩] }) := by
      simp only [addUserFavorite]
      rw [hnil]
    have hfilter1 : ({ db with userFavorites :=
          db.userFavorites ++ [⟨newId1, userId, shopId, t1⟩] } : DB).userFavorites.filter
        (fun fv => fv.userId == userId && fv.shopId == shopId) =
        [⟨newId1, userId, shopId, t1⟩] := by
      simp only [List.filter_append, hnil, List.nil_append]
      simp
    have hstep2 : addUserFavorite
        ({ db with userFavorites := db.userFavorites ++ [⟨newId1, userId, shopId, t1⟩] } : DB)
        userId shopId newId2 t2 =
        (⟨newId1, userId, shopId, t1⟩,
         { db with userFavorites := db.userFavorites ++ [⟨newId1, userId, shopId, t1⟩] }) := by
      simp only [addUserFavorite]
      rw [hfilter1]
    rw [hstep1]
    constructor
    · simp only [hstep2]
    · simp only [hstep2, favoriteCount, hfilter1, List.length_cons, List.length_nil]
  · intro e rest hcons
    simp only [addUserFavorite]
    rw [hcons]
  · intro hzero
    have hnil : db.userFavorites.filter
        (fun fv => fv.userId == userId && fv.shopId == shopId) = [] :=
      List.length_eq_zero.mp hzero
    have hall : ∀ fv ∈ db.userFavorites,
        ¬ ((fv.userId == userId && fv.shopId == shopId) = true) := by
      intro fv hfv hhit
      have : fv ∈ db.userFavorites.filter
          (fun fv => fv.userId == userId && fv.shopId == shopId) :=
        List.mem_filter.mpr ⟨hfv, hhit⟩
      rw [hnil] at this
      exact absurd this (List.not_mem_nil fv)
    have hself : db.userFavorites.filter
        (fun fv => !(fv.userId == userId && fv.shopId == shopId)) = db.userFavorites := by
      apply List.filter_eq_self.mpr
      intro fv hfv
      have h1 := hall fv hfv
      simp only [Bool.not_eq_true] at h1 ⊢
      simp [h1]
    simp only [removeUserFavorite, hself]

/-- Fixture database holding one favorite of shop s2 by user u1. -/
def dbFav : DB := ⟨[publishedShop], [], [], [], [⟨"f1", "u1", "s2", 7⟩]⟩

/-- C7 witness: the theorem evaluated on an empty favorite set (both
idempotence after a double add and the no-op removal) and on a database
already containing the favorite (the early-return branch). -/
theorem c7_favorites_witness :
    ((addUserFavorite (addUserFavorite dbC3 "u1" "s2" "f1" 1).2 "u1" "s2" "f2" 2 =
        ((addUserFavorite dbC3 "u1" "s2" "f1" 1).1, (addUserFavorite dbC3 "u1" "s2" "f1" 1).2) ∧
      favoriteCount
        (addUserFavorite (addUserFavorite dbC3 "u1" "s2" "f1" 1).2 "u1" "s2" "f2" 2).2
        "u1" "s2" = 1) ∧
     removeUserFavorite dbC3 "u1" "s2" = dbC3) ∧
    addUserFavorite dbFav "u1" "s2" "f9" 9 = (⟨"f1", "u1", "s2", 7⟩, dbFav) :=
  ⟨⟨(c7_favorites dbC3 "u1" "s2" "f1" "f2" 1 2).1 (by decide),
    (c7_favorites dbC3 "u1" "s2" "f1" "f2" 1 2).2.2 (by decide)⟩,
   (c7_favorites dbFav "u1" "s2" "f9" "f2" 9 2).2.1 ⟨"f1", "u1", "s2", 7⟩ [] (by decide)⟩

/-- C1: `getShops` returns exactly the `[offset, offset+limit)` window of
the fully filtered and sorted collection — pagination happens after
distance computation, radius filtering and any distance re-sort — and for
a fixed filter the concatenation of successive pages (offsets 0, L, 2L, …)
equals the unpaginated full result, with no duplicates and no omissions. -/
theorem c1_pagination (p : MathPrims) (db : DB) (f : ShopFilters) (o L k : ℕ)
    (hk : (getShopsFull p db f).length ≤ k * L) :
    getShops p db { f with offset := some (JSNum.num (o:ℚ)), limit := some (JSNum.num (L:ℚ)) } =
      (((getShopsFull p db f).drop o).take L).map (hydrateShop db) ∧
    (List.range k).flatMap (fun i =>
      getShops p db { f with offset := some (JSNum.num ((i * L : ℕ):ℚ)), limit := some (JSNum.num (L:ℚ)) }) =
      (getShopsFull p db f).map (hydrateShop db) := by
  constructor
  · exact getShops_page p db f o L
  · have hpages : ∀ i : ℕ,
        getShops p db { f with offset := some (JSNum.num ((i * L : ℕ):ℚ)), limit := some (JSNum.num (L:ℚ)) } =
        (((getShopsFull p db f).drop (i * L)).take L).map (hydrateShop db) :=
      fun i => getShops_page p db f (i * L) L
    simp only [hpages]
    rw [← List.map_flatMap, flatMap_range_chunks, List.take_of_length_le hk]

/-- C1 witness: the theorem evaluated on the fixture database with page
size 1 and 5 pages covering the single-element full result. -/
theorem c1_pagination_witness :
    (getShops testPrims dbW { emptyFilters with offset := some (JSNum.num ((0:ℕ):ℚ)), limit := some (JSNum.num ((1:ℕ):ℚ)) } =
      (((getShopsFull testPrims dbW emptyFilters).drop 0).take 1).map (hydrateShop dbW) ∧
    (List.range 5).flatMap (fun i =>
      getShops testPrims dbW { emptyFilters with offset := some (JSNum.num ((i * 1 : ℕ):ℚ)), limit := some (JSNum.num ((1:ℕ):ℚ)) }) =
      (getShopsFull testPrims dbW emptyFilters).map (hydrateShop dbW)) :=
  c1_pagination testPrims dbW emptyFilters 0 1 5
    (by rw [getShopsFull_dbW_eval]; decide)

/-- A radius with no reference point present is never consulted: the
distance block is skipped entirely. -/
theorem getShops_radius_inert (p : MathPrims) (db : DB) (f : ShopFilters)
    (h : f.lat = none ∨ f.lng = none) (r : Option JSNum) :
    getShops p db { f with radius := r } = getShops p db { f with radius := none } := by
  have hds : ∀ rr : Option JSNum,
      distanceStage p { f with radius := rr } (sortStage f (baseQuery db f)) =
        sortStage f (baseQuery db f) := by
    intro rr
    unfold distanceStage
    rcases h with h1 | h1
    · cases hlo : f.lng <;> simp [h1, hlo]
    · cases hla : f.lat <;> simp [h1, hla]
  have hfull : ∀ rr : Option JSNum,
      getShopsFull p db { f with radius := rr } = sortStage f (baseQuery db f) := by
    intro rr
    have hbase : getShopsFull p db { f with radius := rr } =
        distanceStage p { f with radius := rr } (sortStage f (baseQuery db f)) := rfl
    rw [hbase, hds]
  simp only [getShops, hfull]

/-- A malformed (`NaN`) radius together with a present reference point
excludes every shop: `distance <= NaN` is false for every row. -/
theorem getShops_radius_nan (p : MathPrims) (db : DB) (f : ShopFilters) (la lo : JSNum)
    (hla : f.lat = some la) (hlo : f.lng = some lo) (hr : f.radius = some JSNum.nan) :
    getShops p db f = [] := by
  have hfull : getShopsFull p db f = [] := by
    unfold getShopsFull distanceStage
    rw [hla, hlo, hr]
    simp [sortWith]
  simp only [getShops, hfull, jsSlice_nil, List.map_nil]

/-- A malformed (`NaN`) limit yields an empty page: the slice end index
collapses to 0. -/
theorem getShops_limit_nan (p : MathPrims) (db : DB) (f : ShopFilters)
    (h : f.limit = some JSNum.nan) : getShops p db f = [] := by
  simp only [getShops, h, Option.getD_some, jsAdd_nan_right, jsSlice_end_nan, List.map_nil]

/-- A malformed (`NaN`) offset yields an empty page. -/
theorem getShops_offset_nan (p : MathPrims) (db : DB) (f : ShopFilters)
    (h : f.offset = some JSNum.nan) : getShops p db f = [] := by
  simp only [getShops, h, Option.getD_some, jsAdd_nan_left, jsSlice_end_nan, List.map_nil]

/-- C3 counterexample: a malformed (`NaN`) radius is not treated as
absent — with a valid reference point it empties the result, which
therefore differs from the same query without the radius field. -/
theorem c3_counterexample :
    getShops testPrims dbC3 fRadiusNaN = [] ∧ getShops testPrims dbC3 fNoRadius ≠ [] := by
  constructor
  · exact getShops_radius_nan testPrims dbC3 fRadiusNaN (JSNum.num 50) (JSNum.num 13)
      rfl rfl rfl
  · have hlen : (getShops testPrims dbC3 fNoRadius).length = 1 := by
      rw [getShops_default_page testPrims dbC3 fNoRadius rfl rfl]
      norm_num [getShopsFull, baseQuery, sortStage, distanceStage, sortWith, insertSorted,
        fNoRadius, emptyFilters, dbC3, matchesBaseFilters, publishedShop,
        avgRatingOf, shopReviews]
    intro hcontra
    rw [hcontra] at hlen
    simp at hlen

/-- C3 amended: the query is a total function of the filter object (it
never throws) and a radius sent without a reference point is inert; but
malformed numeric inputs are NOT treated as absent: they arrive as `NaN`
and propagate — a `NaN` radius with a present reference point excludes
every shop, and a `NaN` limit or offset produces an empty page. -/
theorem c3_malformed_filters (p : MathPrims) (db : DB) (f : ShopFilters) :
    ((f.lat = none ∨ f.lng = none) →
      ∀ r, getShops p db { f with radius := r } = getShops p db { f with radius := none }) ∧
    (∀ la lo, f.lat = some la → f.lng = some lo → f.radius = some JSNum.nan →
      getShops p db f = []) ∧
    (f.limit = some JSNum.nan → getShops p db f = []) ∧
    (f.offset = some JSNum.nan → getShops p db f = []) := by
  exact ⟨fun h r => getShops_radius_inert p db f h r,
    fun la lo hla hlo hr => getShops_radius_nan p db f la lo hla hlo hr,
    fun h => getShops_limit_nan p db f h,
    fun h => getShops_offset_nan p db f h⟩

/-- C3 witness: the amended theorem evaluated on concrete filters: the
`NaN` radius with a present reference point empties the result, and with
no reference point a `NaN` radius is inert. -/
theorem c3_malformed_filters_witness :
    getShops testPrims dbC3 fRadiusNaN = [] ∧
    getShops testPrims dbC3 { emptyFilters with radius := some JSNum.nan } =
      getShops testPrims dbC3 { emptyFilters with radius := none } :=
  ⟨(c3_malformed_filters testPrims dbC3 fRadiusNaN).2.1 (JSNum.num 50) (JSNum.num 13)
      rfl rfl rfl,
   (c3_malformed_filters testPrims dbC3 emptyFilters).1 (Or.inl rfl) (some JSNum.nan)⟩

end LocalDoener
